import Mathlib

/-!
Verification of the ranked-matchmaking and rating subsystem of the repository
(`src/server/services/leaderboard.ts` — `LeaderboardService` and `QueueService` —
together with the Elo helpers duplicated in the elo service module).

Shallow embedding conventions:
* JavaScript `number` values that carry rating arithmetic are modelled as exact
  reals (`ℝ`); `Math.round` is Mathlib's `round` (both compute `⌊x + 1/2⌋`),
  `Math.pow` is `Real.rpow`, `Math.max` is `max`.
* The Postgres tables (`player_ratings`, `queue_entries`, `matches`) are lists
  of rows held in a `DBState`, kept in insertion order; serial id columns are
  modelled by `nextQueueEntryId` / `nextMatchId` counters in the state.
* A Drizzle `select ... where p ... limit 1` is `List.find?`; an
  `update ... set ... where p` is a `List.map` that rewrites exactly the rows
  satisfying `p`; `orderBy` is `List.insertionSort`; `insert` appends.
* `new Date()` timestamps are an explicit `now : ℕ` argument threaded into the
  operations that read the clock.
* Redis player-state writes and event-emitter notifications are transient
  side channels (spec §4.2: last-write-wins cache, lost on eviction, the
  durable store stays authoritative); no claim mentions them, and they are
  not part of the modelled state.
* A thrown JS exception is `Except.error`.
-/

/-! ## Data model (`src/server/db/schema.ts`) -/

/-- Row of `player_ratings`: primary key (playerId, gameMode), `real` rating
columns, `integer` counters, nullable `last_played`. -/
structure Rating where
  playerId : String
  gameMode : String
  rating : ℝ
  gamesPlayed : ℤ
  wins : ℤ
  losses : ℤ
  draws : ℤ
  lastPlayed : Option ℕ
  peakRating : ℝ

/-- Queue entry status (`queue_entries.status` text column). -/
inductive QueueStatus where
  | waiting
  | matched
  | cancelled
deriving DecidableEq

/-- Row of `queue_entries`. -/
structure QueueEntry where
  id : ℕ
  playerId : String
  gameMode : String
  joinedAt : ℕ
  status : QueueStatus
  matchId : Option ℕ
deriving DecidableEq

/-- Match status (`matches.status` text column). -/
inductive MatchStatus where
  | in_progress
  | completed
  | cancelled
deriving DecidableEq

/-- Row of `matches`. -/
structure MatchRow where
  id : ℕ
  gameMode : String
  player1Id : String
  player2Id : String
  startedAt : ℕ
  completedAt : Option ℕ
  winnerId : Option String
  status : MatchStatus
  gameNumber : ℤ
deriving DecidableEq

/-- The durable store: the three tables, in row-insertion order, plus the
serial-id counters backing the `generatedByDefaultAsIdentity` columns. -/
structure DBState where
  ratings : List Rating
  queueEntries : List QueueEntry
  «matches» : List MatchRow
  nextQueueEntryId : ℕ
  nextMatchId : ℕ

/-! ## Rating engine (pure part of `QueueService` / elo service) -/

/-- Standard K-factor for Elo calculations. -/
def K_FACTOR : ℝ := 32

/-- Higher K-factor for players with few games. -/
def PROVISIONAL_K_FACTOR : ℝ := 64

/-- Number of games before a player is no longer provisional. -/
def PROVISIONAL_THRESHOLD : ℤ := 10

/-- `calculateExpectedScore(playerRating, opponentRating) =
1 / (1 + Math.pow(10, (opponentRating - playerRating) / 400))`. -/
noncomputable def calculateExpectedScore (playerRating opponentRating : ℝ) : ℝ :=
  1 / (1 + (10 : ℝ) ^ ((opponentRating - playerRating) / 400))

/-- `calculateNewRating(currentRating, expectedScore, actualScore, gamesPlayed)`:
`Math.round(currentRating + kFactor * (actualScore - expectedScore))` with the
provisional K-factor while `gamesPlayed < PROVISIONAL_THRESHOLD`. -/
noncomputable def calculateNewRating (currentRating expectedScore actualScore : ℝ)
    (gamesPlayed : ℤ) : ℤ :=
  let kFactor := if gamesPlayed < PROVISIONAL_THRESHOLD then PROVISIONAL_K_FACTOR else K_FACTOR
  round (currentRating + kFactor * (actualScore - expectedScore))

/-! ## Queue service (`QueueService`) -/

/-- Boolean row filter for `player_ratings` keyed on (playerId, gameMode). -/
def ratingKey (playerId gameMode : String) (r : Rating) : Bool :=
  r.playerId == playerId && r.gameMode == gameMode

/-- `getPlayerRating(playerId, gameMode)`: `select ... where playerId = ? and
gameMode = ? limit 1`. -/
def getPlayerRating (s : DBState) (playerId gameMode : String) : Option Rating :=
  s.ratings.find? (ratingKey playerId gameMode)

/-- Default rating row inserted for a player's first game in a mode. -/
def defaultRating (playerId gameMode : String) (now : ℕ) : Rating :=
  { playerId := playerId, gameMode := gameMode, rating := 1000, gamesPlayed := 0,
    wins := 0, losses := 0, draws := 0, lastPlayed := some now, peakRating := 1000 }

/-- `getOrCreatePlayerRating`: the stored row, or insert-and-return the default
row. -/
def getOrCreatePlayerRating (playerId gameMode : String) (now : ℕ) (s : DBState) :
    Rating × DBState :=
  match getPlayerRating s playerId gameMode with
  | some rating => (rating, s)
  | none =>
      let newRating := defaultRating playerId gameMode now
      (newRating, { s with ratings := s.ratings ++ [newRating] })

/-- Values written by the `updateRatings` update statement for player 1's rows:
all fields come from the fetched row `player1Rating` and the freshly computed
`player1NewRating`; `wins`/`losses`/`draws` increment on `result === 1`/`0`/
`0.5` respectively; peakRating = `Math.max(previous peak, new rating)`. -/
noncomputable def p1UpdatedRow (player1Rating : Rating) (player1NewRating : ℤ)
    (result : ℝ) (now : ℕ) (r : Rating) : Rating :=
  { r with rating := (player1NewRating : ℝ),
           gamesPlayed := player1Rating.gamesPlayed + 1,
           wins := if result = 1 then player1Rating.wins + 1 else player1Rating.wins,
           losses := if result = 0 then player1Rating.losses + 1 else player1Rating.losses,
           draws := if result = 0.5 then player1Rating.draws + 1 else player1Rating.draws,
           lastPlayed := some now,
           peakRating := max player1Rating.peakRating (player1NewRating : ℝ) }

/-- Values written by the `updateRatings` update statement for player 2's rows
(the `wins`/`losses` conditions are mirrored: `result === 0`/`1`). -/
noncomputable def p2UpdatedRow (player2Rating : Rating) (player2NewRating : ℤ)
    (result : ℝ) (now : ℕ) (r : Rating) : Rating :=
  { r with rating := (player2NewRating : ℝ),
           gamesPlayed := player2Rating.gamesPlayed + 1,
           wins := if result = 0 then player2Rating.wins + 1 else player2Rating.wins,
           losses := if result = 1 then player2Rating.losses + 1 else player2Rating.losses,
           draws := if result = 0.5 then player2Rating.draws + 1 else player2Rating.draws,
           lastPlayed := some now,
           peakRating := max player2Rating.peakRating (player2NewRating : ℝ) }

/-- `updateRatings(player1Id, player2Id, gameMode, result)`: fetch/create both
rating rows, compute expected and new ratings, then run one
`update player_ratings set ... where playerId = ? and gameMode = ?` per player
(every matching row receives the same values, computed from the fetched row).
Returns `{player1NewRating, player2NewRating}` next to the new state. -/
noncomputable def updateRatings (player1Id player2Id gameMode : String) (result : ℝ)
    (now : ℕ) (s : DBState) : (ℤ × ℤ) × DBState :=
  let p1 := getOrCreatePlayerRating player1Id gameMode now s
  let player1Rating := p1.1
  let p2 := getOrCreatePlayerRating player2Id gameMode now p1.2
  let player2Rating := p2.1
  let player1Expected := calculateExpectedScore player1Rating.rating player2Rating.rating
  let player2Expected := calculateExpectedScore player2Rating.rating player1Rating.rating
  let player1NewRating :=
    calculateNewRating player1Rating.rating player1Expected result player1Rating.gamesPlayed
  let player2NewRating :=
    calculateNewRating player2Rating.rating player2Expected (1 - result) player2Rating.gamesPlayed
  let afterP1 := p2.2.ratings.map fun r =>
    if ratingKey player1Id gameMode r then
      p1UpdatedRow player1Rating player1NewRating result now r
    else r
  let afterP2 := afterP1.map fun r =>
    if ratingKey player2Id gameMode r then
      p2UpdatedRow player2Rating player2NewRating result now r
    else r
  ((player1NewRating, player2NewRating), { p2.2 with ratings := afterP2 })

/-- Overwrite applied by the `completeMatch` update statement. -/
def completeRow (m : MatchRow) (winnerId : Option String) (now : ℕ) : MatchRow :=
  { m with completedAt := some now, winnerId := winnerId, status := MatchStatus.completed }

/-- `completeMatch(matchId, winnerId)`: `update matches set completedAt,
winnerId, status = completed where id = matchId returning`; throws when no row
was updated; derives the numeric result (1 / 0 / 0.5 relative to player 1,
0.5 whenever winnerId matches neither player) and updates both ratings. -/
noncomputable def completeMatch (matchId : ℕ) (winnerId : Option String) (now : ℕ)
    (s : DBState) : Except String (MatchRow × DBState) :=
  let updated := s.matches.map fun m => if m.id == matchId then completeRow m winnerId now else m
  match updated.find? (fun m => m.id == matchId) with
  | none => Except.error ("Match " ++ toString matchId ++ " not found")
  | some m =>
      let s1 := { s with «matches» := updated }
      let result : ℝ :=
        if winnerId = some m.player1Id then 1
        else if winnerId = some m.player2Id then 0
        else 0.5
      let u := updateRatings m.player1Id m.player2Id m.gameMode result now s1
      Except.ok (m, u.2)

/-- State reached by a successful `completeMatch` call that found row `m0`:
the match-table update followed by `updateRatings` on `m0`'s players with the
derived `result`.  Abbreviation used in theorem statements; definitionally the
composition occurring inside `completeMatch`. -/
noncomputable def ratingsAfterCompletion (matchId : ℕ) (winnerId : Option String)
    (now : ℕ) (s : DBState) (m0 : MatchRow) (result : ℝ) : DBState :=
  (updateRatings m0.player1Id m0.player2Id m0.gameMode result now
    { s with «matches» :=
        s.matches.map fun m => if m.id == matchId then completeRow m winnerId now else m }).2

/-- `getNextGameNumber()`: `select ... orderBy desc(gameNumber) limit 1`, then
that row's gameNumber + 1, or 1 when the table is empty. -/
def getNextGameNumber (s : DBState) : ℤ :=
  let lastMatch := (List.insertionSort (fun a b => b.gameNumber ≤ a.gameNumber) s.matches).head?
  match lastMatch with
  | some m => m.gameNumber + 1
  | none => 1

/-- Boolean row filter for the waiting queue of a game mode. -/
def waitingKey (gameMode : String) (e : QueueEntry) : Bool :=
  e.gameMode == gameMode && e.status == QueueStatus.waiting

/-- `matchPlayers(gameMode)`: take the two longest-waiting entries
(`where gameMode = ? and status = waiting orderBy asc(joinedAt) limit 2`);
fewer than two → no-op returning null; otherwise insert a match carrying
`getNextGameNumber()` and mark exactly the two selected entries matched. -/
def matchPlayers (gameMode : String) (now : ℕ) (s : DBState) :
    Option MatchRow × DBState :=
  let queuedPlayers :=
    (List.insertionSort (fun a b => a.joinedAt ≤ b.joinedAt)
      (s.queueEntries.filter (waitingKey gameMode))).take 2
  match queuedPlayers with
  | player1 :: player2 :: _ =>
      let m : MatchRow :=
        { id := s.nextMatchId, gameMode := gameMode, player1Id := player1.playerId,
          player2Id := player2.playerId, startedAt := now, completedAt := none,
          winnerId := none, status := MatchStatus.in_progress,
          gameNumber := getNextGameNumber s }
      let s1 := { s with «matches» := s.matches ++ [m], nextMatchId := s.nextMatchId + 1 }
      let s2 := { s1 with queueEntries := s1.queueEntries.map fun e =>
        if e.id == player1.id || e.id == player2.id then
          { e with status := QueueStatus.matched, matchId := some m.id }
        else e }
      (some m, s2)
  | _ => (none, s)

/-- Boolean row filter for a player's waiting entry (any game mode), as used by
the `joinQueue` duplicate check. -/
def playerWaiting (playerId : String) (e : QueueEntry) : Bool :=
  e.playerId == playerId && e.status == QueueStatus.waiting

/-- `joinQueue(playerId, gameMode)`: return the existing waiting entry when one
exists for the player (any mode, no insert); otherwise insert a fresh waiting
entry, attempt pairing for the mode, and return the inserted row. -/
def joinQueue (playerId gameMode : String) (now : ℕ) (s : DBState) :
    QueueEntry × DBState :=
  let existingEntry := s.queueEntries.find? (playerWaiting playerId)
  match existingEntry with
  | some e => (e, s)
  | none =>
      let entry : QueueEntry :=
        { id := s.nextQueueEntryId, playerId := playerId, gameMode := gameMode,
          joinedAt := now, status := QueueStatus.waiting, matchId := none }
      let s1 := { s with queueEntries := s.queueEntries ++ [entry],
                         nextQueueEntryId := s.nextQueueEntryId + 1 }
      let s2 := (matchPlayers gameMode now s1).2
      (entry, s2)

/-! ## Leaderboard cache (`LeaderboardService`) -/

/-- Entry served by the leaderboard cache.  Only the id takes part in per-user
lookups; the rest of the upstream payload is abbreviated to the mmr column. -/
structure LeaderboardEntry where
  id : String
  mmr : ℤ
deriving DecidableEq

/-- `{ data, isStale }` response shape of the leaderboard read path. -/
structure LeaderboardResponse where
  data : List LeaderboardEntry
  isStale : Bool
deriving DecidableEq

/-- `refreshLeaderboard(queue_id)`: on upstream success return the fresh list
non-stale (the cache/snapshot/backup writes land in the ephemeral and durable
stores); on any failure fall back to the single durable backup record, or to
an empty stale list when none exists.  The upstream fetch outcome and the
current backup record are explicit oracle arguments. -/
def refreshLeaderboard (upstream : Except Unit (List LeaderboardEntry))
    (backup : Option (List LeaderboardEntry)) : LeaderboardResponse :=
  match upstream with
  | Except.ok fresh => { data := fresh, isStale := false }
  | Except.error _ =>
      match backup with
      | some b => { data := b, isStale := true }
      | none => { data := [], isStale := true }

/-- `getLeaderboard(queue_id)`: Redis raw-cache read first (`.ok (some d)` hit,
`.ok none` miss, `.error` a throwing read), refresh on a miss, and the durable
backup record (or `[]`) when the read threw. -/
def getLeaderboard (cacheRaw : Except Unit (Option (List LeaderboardEntry)))
    (upstream : Except Unit (List LeaderboardEntry))
    (backup : Option (List LeaderboardEntry)) : LeaderboardResponse :=
  match cacheRaw with
  | Except.ok (some cached) => { data := cached, isStale := false }
  | Except.ok none => refreshLeaderboard upstream backup
  | Except.error _ =>
      match backup with
      | some b => { data := b, isStale := true }
      | none => { data := [], isStale := true }

/-- Modelled from the spec: the Redis client module (`src/server/redis`) is not
among the provided sources, so the per-user hash read is modelled after spec §6
("hash-like multi-field get") as an `Option` — `some` when the user's hash
exists, `none` on a miss — wrapped in `Except` for a throwing read.
`getUserRank(queue_id, user_id)` then follows the source: cache hit → the
entry, non-stale; miss → `refreshLeaderboard`, destructuring only its `data`
field (the `isStale` flag is discarded), and the user's entry from it,
non-stale; otherwise the backup record, stale; null when absent everywhere or
when the read threw (the outer catch returns null). -/
def getUserRank (userId : String)
    (userCache : Except Unit (Option LeaderboardEntry))
    (upstream : Except Unit (List LeaderboardEntry))
    (backup : Option (List LeaderboardEntry)) : Option (LeaderboardEntry × Bool) :=
  match userCache with
  | Except.error _ => none
  | Except.ok (some userData) => some (userData, false)
  | Except.ok none =>
      let freshLeaderboard := (refreshLeaderboard upstream backup).data
      match freshLeaderboard.find? (fun e => e.id == userId) with
      | some userEntry => some (userEntry, false)
      | none =>
          match backup with
          | some b =>
              match b.find? (fun e => e.id == userId) with
              | some userEntry => some (userEntry, true)
              | none => none
          | none => none

/-- Spec §3 invariant on a `player_ratings` row. -/
def RatingInv (r : Rating) : Prop :=
  r.rating ≤ r.peakRating ∧ r.gamesPlayed = r.wins + r.losses + r.draws

/-! ## Concrete instances used by counterexamples and witnesses -/

/-- Empty durable store. -/
def emptyDB : DBState :=
  { ratings := [], queueEntries := [], «matches» := [],
    nextQueueEntryId := 0, nextMatchId := 0 }

/-- Store holding a single waiting entry of player "q" in mode "m". -/
def qSeed : DBState :=
  { ratings := [],
    queueEntries := [{ id := 0, playerId := "q", gameMode := "m", joinedAt := 0,
                       status := QueueStatus.waiting, matchId := none }],
    «matches» := [], nextQueueEntryId := 1, nextMatchId := 0 }

/-- Store holding three waiting entries for mode "m" (players "a", "b", "c",
join times 10 < 20 < 30) and one completed match with gameNumber 5. -/
def mSeed : DBState :=
  { ratings := [],
    queueEntries :=
      [{ id := 1, playerId := "a", gameMode := "m", joinedAt := 10,
         status := QueueStatus.waiting, matchId := none },
       { id := 2, playerId := "b", gameMode := "m", joinedAt := 20,
         status := QueueStatus.waiting, matchId := none },
       { id := 3, playerId := "c", gameMode := "m", joinedAt := 30,
         status := QueueStatus.waiting, matchId := none }],
    «matches» := [{ id := 0, gameMode := "m", player1Id := "x", player2Id := "y",
                    startedAt := 0, completedAt := some 1, winnerId := some "x",
                    status := MatchStatus.completed, gameNumber := 5 }],
    nextQueueEntryId := 4, nextMatchId := 1 }

/-- Store holding one already-completed match (id 0, winner "a", completed at
time 5) and the two participants' rating rows after that first completion. -/
def cSeed : DBState :=
  { ratings :=
      [{ playerId := "a", gameMode := "m", rating := 1016, gamesPlayed := 1,
         wins := 1, losses := 0, draws := 0, lastPlayed := some 5, peakRating := 1016 },
       { playerId := "b", gameMode := "m", rating := 984, gamesPlayed := 1,
         wins := 0, losses := 1, draws := 0, lastPlayed := some 5, peakRating := 1000 }],
    queueEntries := [],
    «matches» := [{ id := 0, gameMode := "m", player1Id := "a", player2Id := "b",
                    startedAt := 2, completedAt := some 5, winnerId := some "a",
                    status := MatchStatus.completed, gameNumber := 1 }],
    nextQueueEntryId := 0, nextMatchId := 1 }

/-- Store holding one in-progress match between "a" and "b" and no rating
rows (both players are new). -/
def eSeed : DBState :=
  { ratings := [], queueEntries := [],
    «matches» := [{ id := 0, gameMode := "m", player1Id := "a", player2Id := "b",
                    startedAt := 3, completedAt := none, winnerId := none,
                    status := MatchStatus.in_progress, gameNumber := 1 }],
    nextQueueEntryId := 2, nextMatchId := 1 }

/-! ## Theorems -/

/-- C8: for all ratings a and b, `calculateExpectedScore a b +
calculateExpectedScore b a = 1`, with `expectedScore(a, b) =
1 / (1 + 10^((b-a)/400))` exactly as computed by `calculateExpectedScore`. -/
theorem calculateExpectedScore_add_swap_eq_one (a b : ℝ) :
    calculateExpectedScore a b + calculateExpectedScore b a = 1 := by
  unfold calculateExpectedScore
  have hx : (0:ℝ) < (10 : ℝ) ^ ((b - a) / 400) := Real.rpow_pos_of_pos (by norm_num) _
  have hrw : (10 : ℝ) ^ ((a - b) / 400) = ((10 : ℝ) ^ ((b - a) / 400))⁻¹ := by
    rw [show (a - b) / 400 = -((b - a) / 400) by ring, Real.rpow_neg (by norm_num)]
  rw [hrw]
  set x := (10 : ℝ) ^ ((b - a) / 400) with hxdef
  have hxi : (0:ℝ) < x⁻¹ := inv_pos.mpr hx
  have h1 : 1 + x ≠ 0 := by positivity
  have h2 : 1 + x⁻¹ ≠ 0 := by positivity
  field_simp
  ring

/-- C9 counterexample: with current rating 1000, expected score 1/100 ∈ (0,1)
and the standard k = 32 (gamesPlayed = 10), the losing side's new rating does
not strictly decrease — `Math.round(1000 + 32*(0 - 1/100)) = round(999.68) =
1000`, so the rounded rating change is zero, refuting the claimed strict
sign. -/
theorem calculateNewRating_strict_decrease_fails :
    (0:ℝ) < 1/100 ∧ (1:ℝ)/100 < 1 ∧ calculateNewRating 1000 (1/100) 0 10 = 1000 := by
  refine ⟨by norm_num, by norm_num, ?_⟩
  unfold calculateNewRating
  rw [if_neg (by norm_num [PROVISIONAL_THRESHOLD] : ¬ (10:ℤ) < PROVISIONAL_THRESHOLD)]
  rw [round_eq, Int.floor_eq_iff]
  norm_num [K_FACTOR]

/-- C9 (amended): for every integer current rating, expected score in (0,1) and
k-factor fixed by gamesPlayed, the rating change of `calculateNewRating` is
signed by (actual − expected) up to rounding: the losing side (actual = 0)
never gains, the winning side (actual = 1) never loses, and a drawing side
whose expected score is exactly 0.5 keeps its rating; the change is strict
as soon as the unrounded k-weighted gap clears the rounding threshold 1/2
(strictness can fail below it, and "stays the same" is not exclusive to
expected = 0.5). -/
theorem calculateNewRating_signed_up_to_rounding (current : ℤ) (e : ℝ) (gp : ℤ)
    (h0 : 0 < e) (h1 : e < 1) :
    calculateNewRating (current : ℝ) e 0 gp ≤ current ∧
    current ≤ calculateNewRating (current : ℝ) e 1 gp ∧
    (e = 1/2 → calculateNewRating (current : ℝ) e (1/2) gp = current) ∧
    (1/2 < (if gp < PROVISIONAL_THRESHOLD then PROVISIONAL_K_FACTOR else K_FACTOR) * e →
      calculateNewRating (current : ℝ) e 0 gp < current) ∧
    (1/2 ≤ (if gp < PROVISIONAL_THRESHOLD then PROVISIONAL_K_FACTOR else K_FACTOR) * (1 - e) →
      current < calculateNewRating (current : ℝ) e 1 gp) := by
  set k : ℝ := if gp < PROVISIONAL_THRESHOLD then PROVISIONAL_K_FACTOR else K_FACTOR with hkdef
  have hk : (0:ℝ) < k := by
    rw [hkdef]; split <;> norm_num [PROVISIONAL_K_FACTOR, K_FACTOR]
  have key : ∀ a : ℝ, calculateNewRating (current : ℝ) e a gp = round (k * (a - e)) + current := by
    intro a
    unfold calculateNewRating
    rw [← hkdef]
    show round ((current:ℝ) + k * (a - e)) = _
    rw [show ((current:ℝ)) + k * (a - e) = k * (a - e) + ((current:ℤ):ℝ) from by ring,
      round_add_int]
  have hke : (0:ℝ) < k * e := mul_pos hk h0
  have hke1 : (0:ℝ) ≤ k * (1 - e) := mul_nonneg hk.le (by linarith)
  refine ⟨?_, ?_, ?_, ?_, ?_⟩
  · rw [key]
    have : round (k * (0 - e)) ≤ 0 := by
      rw [round_eq]
      calc ⌊k * (0 - e) + 1/2⌋ ≤ ⌊(1/2 : ℝ)⌋ := Int.floor_le_floor (by nlinarith)
        _ = 0 := by norm_num
    omega
  · rw [key]
    have : 0 ≤ round (k * (1 - e)) := by
      rw [round_eq]
      calc (0:ℤ) = ⌊(1/2 : ℝ)⌋ := by norm_num
        _ ≤ ⌊k * (1 - e) + 1/2⌋ := Int.floor_le_floor (by nlinarith)
    omega
  · intro he
    rw [key, he]
    norm_num
  · intro hstrict
    rw [key]
    have : round (k * (0 - e)) < 0 := by
      rw [round_eq, Int.floor_lt]
      push_cast
      nlinarith
    omega
  · intro hstrict
    rw [key]
    have : 1 ≤ round (k * (1 - e)) := by
      rw [round_eq, Int.le_floor]
      push_cast
      nlinarith
    omega

/-- Witness for the amended C9 theorem at current = 1000, e = 1/2,
gamesPlayed = 0 (provisional k = 64). -/
theorem calculateNewRating_signed_up_to_rounding_witness :
    calculateNewRating ((1000 : ℤ) : ℝ) (1/2) 0 0 ≤ 1000 ∧
    (1000 : ℤ) ≤ calculateNewRating ((1000 : ℤ) : ℝ) (1/2) 1 0 ∧
    ((1/2 : ℝ) = 1/2 → calculateNewRating ((1000 : ℤ) : ℝ) (1/2) (1/2) 0 = 1000) ∧
    ((1/2 : ℝ) < (if (0:ℤ) < PROVISIONAL_THRESHOLD then PROVISIONAL_K_FACTOR else K_FACTOR) * (1/2) →
      calculateNewRating ((1000 : ℤ) : ℝ) (1/2) 0 0 < 1000) ∧
    ((1/2 : ℝ) ≤ (if (0:ℤ) < PROVISIONAL_THRESHOLD then PROVISIONAL_K_FACTOR else K_FACTOR) * (1 - 1/2) →
      (1000 : ℤ) < calculateNewRating ((1000 : ℤ) : ℝ) (1/2) 1 0) :=
  calculateNewRating_signed_up_to_rounding 1000 (1/2) 0 (by norm_num) (by norm_num)

/-- C5: `getLeaderboard` is total (it returns a `LeaderboardResponse` for every
outcome of the cache read, the upstream fetch and the backup lookup — never
throwing to the caller), and: a cache hit returns the cached data non-stale; a
cache miss delegates to `refreshLeaderboard`; when the cache read throws, or
the cache misses and the refresh fails, the durable backup record is returned
with isStale = true; with no backup it returns `{data := [], isStale := true}`. -/
theorem getLeaderboard_fallback_spec (cacheRaw : Except Unit (Option (List LeaderboardEntry)))
    (upstream : Except Unit (List LeaderboardEntry))
    (backup : Option (List LeaderboardEntry)) :
    (∀ d, cacheRaw = Except.ok (some d) →
      getLeaderboard cacheRaw upstream backup = { data := d, isStale := false }) ∧
    (cacheRaw = Except.ok none →
      getLeaderboard cacheRaw upstream backup = refreshLeaderboard upstream backup) ∧
    (∀ b, (cacheRaw = Except.error () ∨ (cacheRaw = Except.ok none ∧ upstream = Except.error ())) →
      backup = some b →
      getLeaderboard cacheRaw upstream backup = { data := b, isStale := true }) ∧
    ((cacheRaw = Except.error () ∨ (cacheRaw = Except.ok none ∧ upstream = Except.error ())) →
      backup = none →
      getLeaderboard cacheRaw upstream backup = { data := [], isStale := true }) := by
  refine ⟨?_, ?_, ?_, ?_⟩
  · rintro d rfl
    rfl
  · rintro rfl
    rfl
  · rintro b (rfl | ⟨rfl, rfl⟩) rfl <;> rfl
  · rintro (rfl | ⟨rfl, rfl⟩) rfl <;> rfl

/-- Witness for the C5 theorem: cache miss, failing upstream, one backup
record — the backup is served stale. -/
theorem getLeaderboard_fallback_spec_witness :
    getLeaderboard (Except.ok none) (Except.error ()) (some [{ id := "u", mmr := 1 }]) =
      { data := [{ id := "u", mmr := 1 }], isStale := true } :=
  (getLeaderboard_fallback_spec (Except.ok none) (Except.error ())
    (some [{ id := "u", mmr := 1 }])).2.2.1
    [{ id := "u", mmr := 1 }] (Or.inr ⟨rfl, rfl⟩) rfl

/-- C6 is a code bug; this theorem evaluates `getUserRank` at the two failing
inputs.  First: on a per-user cache miss with a failing upstream and a backup
record containing the user, the entry served comes from the backup via
`refreshLeaderboard`'s internal fallback, yet is returned with isStale =
false — the claim (and spec §4.4) requires isStale = true on total failure;
the `catch` meant to route refresh failures to the explicit backup search is
unreachable because `refreshLeaderboard` never throws.  Second: when the
per-user cache read itself throws, the outer catch returns null even though
the user is present in the backup, contradicting "null only if the user is
absent from every source". -/
theorem getUserRank_total_failure_not_marked_stale :
    getUserRank "u" (Except.ok none) (Except.error ()) (some [{ id := "u", mmr := 1 }]) =
      some ({ id := "u", mmr := 1 }, false) ∧
    getUserRank "u" (Except.error ()) (Except.ok [{ id := "u", mmr := 1 }])
      (some [{ id := "u", mmr := 1 }]) = none :=
  ⟨rfl, rfl⟩

/-- Helper: with fewer than two waiting entries for the mode, `matchPlayers`
is a no-op returning null. -/
theorem matchPlayers_of_lt_two (gameMode : String) (now : ℕ) (s : DBState)
    (h : (s.queueEntries.filter (waitingKey gameMode)).length < 2) :
    matchPlayers gameMode now s = (none, s) := by
  have hp := List.perm_insertionSort (fun a b : QueueEntry => a.joinedAt ≤ b.joinedAt)
    (s.queueEntries.filter (waitingKey gameMode))
  have hlen : (List.insertionSort (fun a b : QueueEntry => a.joinedAt ≤ b.joinedAt)
      (s.queueEntries.filter (waitingKey gameMode))).length < 2 := by
    rw [hp.length_eq]; exact h
  rcases hL : List.insertionSort (fun a b : QueueEntry => a.joinedAt ≤ b.joinedAt)
      (s.queueEntries.filter (waitingKey gameMode)) with _ | ⟨a, _ | ⟨b, t⟩⟩
  · unfold matchPlayers
    rw [hL]
    rfl
  · unfold matchPlayers
    rw [hL]
    rfl
  · rw [hL] at hlen
    simp at hlen
    omega

/-- C7 counterexample: player "q" is already waiting in mode "m"; player "p"
calls `joinQueue` twice in a row with no intervening leave.  The first call
inserts entry 1 and immediately pairs it with "q" (status becomes matched), so
the second call finds no waiting entry for "p" and inserts a fresh entry 2 —
the two calls return different entries. -/
theorem joinQueue_twice_not_same_entry :
    (joinQueue "p" "m" 1 qSeed).1.id = 1 ∧
    (joinQueue "p" "m" 2 (joinQueue "p" "m" 1 qSeed).2).1.id = 2 ∧
    (joinQueue "p" "m" 2 (joinQueue "p" "m" 1 qSeed).2).1 ≠ (joinQueue "p" "m" 1 qSeed).1 := by
  refine ⟨?_, ?_, ?_⟩ <;> decide

/-- C7 (amended): `joinQueue` returns the player's existing waiting entry (and
changes nothing) whenever one exists; consequently two `joinQueue` calls in a
row return the same entry and leave exactly one waiting row for the player,
provided the first call does not already pair the player off (here: no other
entry is waiting for the mode).  If the first call results in a match, the
second call inserts a fresh entry instead. -/
theorem joinQueue_returns_existing_waiting_entry (s : DBState)
    (playerId gameMode : String) (now now2 : ℕ) :
    (∀ e, s.queueEntries.find? (playerWaiting playerId) = some e →
      joinQueue playerId gameMode now s = (e, s)) ∧
    (s.queueEntries.find? (playerWaiting playerId) = none →
     (s.queueEntries.filter (waitingKey gameMode)).length = 0 →
      (joinQueue playerId gameMode now2 (joinQueue playerId gameMode now s).2).1 =
        (joinQueue playerId gameMode now s).1 ∧
      (joinQueue playerId gameMode now2 (joinQueue playerId gameMode now s).2).2 =
        (joinQueue playerId gameMode now s).2 ∧
      ((joinQueue playerId gameMode now s).2.queueEntries.filter
        (playerWaiting playerId)).length = 1) := by
  constructor
  · intro e he
    unfold joinQueue
    rw [he]
  · intro hnone hmode
    have hfilter : s.queueEntries.filter (waitingKey gameMode) = [] :=
      List.length_eq_zero.mp hmode
    set entry : QueueEntry :=
      { id := s.nextQueueEntryId, playerId := playerId, gameMode := gameMode,
        joinedAt := now, status := QueueStatus.waiting, matchId := none } with hentry
    set s1 : DBState :=
      { s with queueEntries := s.queueEntries ++ [entry],
               nextQueueEntryId := s.nextQueueEntryId + 1 } with hs1
    have hmp : matchPlayers gameMode now s1 = (none, s1) := by
      apply matchPlayers_of_lt_two
      show (List.filter (waitingKey gameMode) (s.queueEntries ++ [entry])).length < 2
      rw [List.filter_append, hfilter, List.nil_append]
      exact lt_of_le_of_lt (List.length_filter_le _ _) (by norm_num)
    have hfirst : joinQueue playerId gameMode now s = (entry, s1) := by
      unfold joinQueue
      rw [hnone]
      simp only [hmp]
    rw [hfirst]
    have hpw : playerWaiting playerId entry = true := by
      rw [hentry]
      simp [playerWaiting]
    have hfind1 : s1.queueEntries.find? (playerWaiting playerId) = some entry := by
      show List.find? (playerWaiting playerId) (s.queueEntries ++ [entry]) = some entry
      rw [List.find?_append, hnone, Option.none_or]
      simp [hpw]
    have hsecond : joinQueue playerId gameMode now2 s1 = (entry, s1) := by
      unfold joinQueue
      rw [hfind1]
    rw [hsecond]
    refine ⟨rfl, rfl, ?_⟩
    show (List.filter (playerWaiting playerId) (s.queueEntries ++ [entry])).length = 1
    rw [List.filter_append,
      List.filter_eq_nil_iff.mpr (fun a ha => List.find?_eq_none.mp hnone a ha),
      List.nil_append]
    simp [hpw]

/-- Witness for the amended C7 theorem: a lone player joining an empty queue
twice gets the same entry back and exactly one waiting row exists. -/
theorem joinQueue_returns_existing_waiting_entry_witness :
    (joinQueue "p" "m" 1 (joinQueue "p" "m" 0 emptyDB).2).1 =
      (joinQueue "p" "m" 0 emptyDB).1 ∧
    (joinQueue "p" "m" 1 (joinQueue "p" "m" 0 emptyDB).2).2 =
      (joinQueue "p" "m" 0 emptyDB).2 ∧
    ((joinQueue "p" "m" 0 emptyDB).2.queueEntries.filter
      (playerWaiting "p")).length = 1 :=
  (joinQueue_returns_existing_waiting_entry emptyDB "p" "m" 0 1).2 rfl rfl

/-- C2: `matchPlayers(gameMode)` with fewer than two waiting entries for the
mode is a no-op returning null.  Otherwise — stated for stores whose waiting
list is already (joinedAt, id)-lexicographically ordered, which is how rows
accumulate (serial ids in insertion order, nondecreasing join times; ties
broken by entry id) — it pairs exactly the first two (longest-waiting)
entries, creates a match whose gameNumber is `getNextGameNumber` — one more
than the maximum existing gameNumber, 1 when no match exists — and marks
exactly those two entries matched with the new match's id.  In particular,
with three waiting entries joined at t1 < t2 < t3 the entries at t1 and t2
are paired and the entry at t3 stays waiting. -/
theorem matchPlayers_pairs_two_longest_waiting (s : DBState) (gameMode : String) (now : ℕ) :
    ((s.queueEntries.filter (waitingKey gameMode)).length < 2 →
      matchPlayers gameMode now s = (none, s)) ∧
    (∀ e1 e2 rest, s.queueEntries.filter (waitingKey gameMode) = e1 :: e2 :: rest →
      (e1 :: e2 :: rest).Pairwise
        (fun a b => a.joinedAt < b.joinedAt ∨ (a.joinedAt = b.joinedAt ∧ a.id < b.id)) →
      matchPlayers gameMode now s =
        (some { id := s.nextMatchId, gameMode := gameMode, player1Id := e1.playerId,
                player2Id := e2.playerId, startedAt := now, completedAt := none,
                winnerId := none, status := MatchStatus.in_progress,
                gameNumber := getNextGameNumber s },
         { s with
             «matches» := s.matches ++
               [{ id := s.nextMatchId, gameMode := gameMode, player1Id := e1.playerId,
                  player2Id := e2.playerId, startedAt := now, completedAt := none,
                  winnerId := none, status := MatchStatus.in_progress,
                  gameNumber := getNextGameNumber s }],
             nextMatchId := s.nextMatchId + 1,
             queueEntries := s.queueEntries.map fun e =>
               if e.id == e1.id || e.id == e2.id then
                 { e with status := QueueStatus.matched, matchId := some s.nextMatchId }
               else e })) ∧
    (s.matches = [] → getNextGameNumber s = 1) ∧
    (∀ mm ∈ s.matches, mm.gameNumber < getNextGameNumber s) ∧
    (s.matches ≠ [] → ∃ mm ∈ s.matches, getNextGameNumber s = mm.gameNumber + 1) ∧
    (∀ e1 e2 e3, s.queueEntries.filter (waitingKey gameMode) = [e1, e2, e3] →
      e1.joinedAt < e2.joinedAt → e2.joinedAt < e3.joinedAt →
      e3.id ≠ e1.id → e3.id ≠ e2.id →
      (matchPlayers gameMode now s).1 =
        some { id := s.nextMatchId, gameMode := gameMode, player1Id := e1.playerId,
               player2Id := e2.playerId, startedAt := now, completedAt := none,
               winnerId := none, status := MatchStatus.in_progress,
               gameNumber := getNextGameNumber s } ∧
      e3 ∈ (matchPlayers gameMode now s).2.queueEntries ∧
      e3.status = QueueStatus.waiting) := by
  have hmain : ∀ e1 e2 rest, s.queueEntries.filter (waitingKey gameMode) = e1 :: e2 :: rest →
      (e1 :: e2 :: rest).Pairwise
        (fun a b => a.joinedAt < b.joinedAt ∨ (a.joinedAt = b.joinedAt ∧ a.id < b.id)) →
      matchPlayers gameMode now s =
        (some { id := s.nextMatchId, gameMode := gameMode, player1Id := e1.playerId,
                player2Id := e2.playerId, startedAt := now, completedAt := none,
                winnerId := none, status := MatchStatus.in_progress,
                gameNumber := getNextGameNumber s },
         { s with
             «matches» := s.matches ++
               [{ id := s.nextMatchId, gameMode := gameMode, player1Id := e1.playerId,
                  player2Id := e2.playerId, startedAt := now, completedAt := none,
                  winnerId := none, status := MatchStatus.in_progress,
                  gameNumber := getNextGameNumber s }],
             nextMatchId := s.nextMatchId + 1,
             queueEntries := s.queueEntries.map fun e =>
               if e.id == e1.id || e.id == e2.id then
                 { e with status := QueueStatus.matched, matchId := some s.nextMatchId }
               else e }) := by
    intro e1 e2 rest hW hsorted
    have hsorted' : (e1 :: e2 :: rest).Sorted
        (fun a b : QueueEntry => a.joinedAt ≤ b.joinedAt) := by
      refine hsorted.imp ?_
      rintro a b (h | ⟨h, _⟩)
      · exact le_of_lt h
      · exact le_of_eq h
    have hss : List.insertionSort (fun a b : QueueEntry => a.joinedAt ≤ b.joinedAt)
        (e1 :: e2 :: rest) = e1 :: e2 :: rest := hsorted'.insertionSort_eq
    unfold matchPlayers
    rw [hW, hss]
    rfl
  have hgn : (s.matches = [] → getNextGameNumber s = 1) ∧
      (∀ mm ∈ s.matches, mm.gameNumber < getNextGameNumber s) ∧
      (s.matches ≠ [] → ∃ mm ∈ s.matches, getNextGameNumber s = mm.gameNumber + 1) := by
    haveI : IsTotal MatchRow (fun a b : MatchRow => b.gameNumber ≤ a.gameNumber) :=
      ⟨fun a b => (le_total a.gameNumber b.gameNumber).symm⟩
    haveI : IsTrans MatchRow (fun a b : MatchRow => b.gameNumber ≤ a.gameNumber) :=
      ⟨fun _ _ _ hab hbc => le_trans hbc hab⟩
    have hperm := List.perm_insertionSort
      (fun a b : MatchRow => b.gameNumber ≤ a.gameNumber) s.matches
    have hsorted := List.sorted_insertionSort
      (fun a b : MatchRow => b.gameNumber ≤ a.gameNumber) s.matches
    rcases hL : List.insertionSort (fun a b : MatchRow => b.gameNumber ≤ a.gameNumber)
        s.matches with _ | ⟨h0, t⟩
    · rw [hL] at hperm
      have hm : s.matches = [] := hperm.symm.eq_nil
      refine ⟨fun _ => ?_, ?_, fun hne => absurd hm hne⟩
      · unfold getNextGameNumber
        rw [hL]
        rfl
      · intro mm hmm
        rw [hm] at hmm
        simp at hmm
    · rw [hL] at hperm hsorted
      have hgne : getNextGameNumber s = h0.gameNumber + 1 := by
        unfold getNextGameNumber
        rw [hL]
        rfl
      refine ⟨fun hm => ?_, ?_, fun _ => ⟨h0, hperm.mem_iff.mp (List.mem_cons_self h0 t), hgne⟩⟩
      · rw [hm] at hperm
        have := hperm.eq_nil
        simp at this
      · intro mm hmm
        have hmem : mm ∈ h0 :: t := hperm.mem_iff.mpr hmm
        rw [hgne]
        rcases List.mem_cons.mp hmem with rfl | hmm'
        · omega
        · have := (List.pairwise_cons.mp hsorted).1 mm hmm'
          omega
  refine ⟨fun h => matchPlayers_of_lt_two gameMode now s h, hmain, hgn.1, hgn.2.1, hgn.2.2, ?_⟩
  intro e1 e2 e3 hW3 h12 h23 hid1 hid2
  have hsorted : ([e1, e2, e3]).Pairwise
      (fun a b => a.joinedAt < b.joinedAt ∨ (a.joinedAt = b.joinedAt ∧ a.id < b.id)) := by
    refine List.Pairwise.cons (fun b hb => ?_) (List.Pairwise.cons (fun b hb => ?_) ?_)
    · rcases List.mem_cons.mp hb with rfl | hb'
      · exact Or.inl h12
      · rcases List.mem_singleton.mp hb' with rfl
        exact Or.inl (lt_trans h12 h23)
    · rcases List.mem_singleton.mp hb with rfl
      exact Or.inl h23
    · exact List.pairwise_singleton _ _
  have hres := hmain e1 e2 [e3] hW3 hsorted
  have he3f : e3 ∈ s.queueEntries.filter (waitingKey gameMode) := by
    rw [hW3]; simp
  have he3 : e3 ∈ s.queueEntries := List.mem_of_mem_filter he3f
  have hwk : waitingKey gameMode e3 = true := List.of_mem_filter he3f
  have hstatus : e3.status = QueueStatus.waiting := by
    have := (Bool.and_eq_true _ _).mp hwk
    simpa using this.2
  refine ⟨by rw [hres], ?_, hstatus⟩
  rw [hres]
  have hb1 : (e3.id == e1.id) = false := by simp [hid1]
  have hb2 : (e3.id == e2.id) = false := by simp [hid2]
  exact List.mem_map.mpr ⟨e3, he3, by simp [hb1, hb2]⟩

/-- Witness for the C2 theorem: with only one waiting entry `matchPlayers` is a
no-op and `getNextGameNumber` of a matchless store is 1; with three waiting
entries joined at 10 < 20 < 30 and an existing match numbered 5, the first two
are paired into match 6 and the third entry stays waiting. -/
theorem matchPlayers_pairs_two_longest_waiting_witness :
    matchPlayers "m" 5 qSeed = (none, qSeed) ∧
    getNextGameNumber qSeed = 1 ∧
    ((matchPlayers "m" 40 mSeed).1 =
      some { id := 1, gameMode := "m", player1Id := "a", player2Id := "b",
             startedAt := 40, completedAt := none, winnerId := none,
             status := MatchStatus.in_progress, gameNumber := getNextGameNumber mSeed } ∧
     { id := 3, playerId := "c", gameMode := "m", joinedAt := 30,
       status := QueueStatus.waiting, matchId := none } ∈
        (matchPlayers "m" 40 mSeed).2.queueEntries ∧
     ({ id := 3, playerId := "c", gameMode := "m", joinedAt := 30,
        status := QueueStatus.waiting, matchId := none } : QueueEntry).status =
       QueueStatus.waiting) :=
  ⟨(matchPlayers_pairs_two_longest_waiting qSeed "m" 5).1 (by decide),
   (matchPlayers_pairs_two_longest_waiting qSeed "m" 5).2.2.1 rfl,
   (matchPlayers_pairs_two_longest_waiting mSeed "m" 40).2.2.2.2.2
     { id := 1, playerId := "a", gameMode := "m", joinedAt := 10,
       status := QueueStatus.waiting, matchId := none }
     { id := 2, playerId := "b", gameMode := "m", joinedAt := 20,
       status := QueueStatus.waiting, matchId := none }
     { id := 3, playerId := "c", gameMode := "m", joinedAt := 30,
       status := QueueStatus.waiting, matchId := none }
     (by decide) (by decide) (by decide) (by decide) (by decide)⟩

/-- C3 counterexample: `completeMatch` on a match that is already completed
(match 0 of `cSeed`, completed at time 5 with winner "a") completes it again:
the second call succeeds, overwrites winnerId ("a" → "b") and completedAt
(5 → 9), and re-applies the rating update (player "a"'s gamesPlayed rises from
1 to 2), refuting "every match is completed exactly once". -/
theorem completeMatch_recompletion_counterexample :
    (completeMatch 0 (some "b") 9 cSeed).toOption.map (fun p => p.1.winnerId) =
      some (some "b") ∧
    (completeMatch 0 (some "b") 9 cSeed).toOption.map (fun p => p.1.completedAt) =
      some (some 9) ∧
    (completeMatch 0 (some "b") 9 cSeed).toOption.map
      (fun p => (getPlayerRating p.2 "a" "m").map Rating.gamesPlayed) =
      some (some 2) :=
  ⟨rfl, rfl, rfl⟩

/-- Helper: the row-completing map of `completeMatch` preserves the id column,
so the post-update lookup by id equals the pre-update lookup mapped. -/
theorem completeRow_map_id_comp (matchId : ℕ) (w : Option String) (now : ℕ) :
    ∀ m : MatchRow,
      ((fun x : MatchRow => x.id == matchId) ∘
        (fun m => if m.id == matchId then completeRow m w now else m)) m =
      (fun x : MatchRow => x.id == matchId) m := by
  intro m
  by_cases h : (m.id == matchId) = true
  · simp only [Function.comp_apply, if_pos h, completeRow]
  · simp only [Function.comp_apply, if_neg h]

/-- Helper: `completeMatch` throws exactly the not-found error when no match
row carries the requested id. -/
theorem completeMatch_not_found_eq (s : DBState) (matchId : ℕ) (w : Option String)
    (now : ℕ) (hnone : ∀ m ∈ s.matches, m.id ≠ matchId) :
    completeMatch matchId w now s =
      Except.error ("Match " ++ toString matchId ++ " not found") := by
  have hbase : List.find? (fun x : MatchRow => x.id == matchId) s.matches = none :=
    List.find?_eq_none.mpr (fun m hm => by simp [hnone m hm])
  have hfn : (s.matches.map fun m =>
      if m.id == matchId then completeRow m w now else m).find?
      (fun m => m.id == matchId) = none := by
    rw [List.find?_map, funext (completeRow_map_id_comp matchId w now), hbase]
    rfl
  simp only [completeMatch]
  rw [hfn]

/-- Helper: when the lookup finds row `m0`, `completeMatch` succeeds with the
overwritten row and the rating update applied with the derived result,
whatever the row's previous status. -/
theorem completeMatch_found_eq (s : DBState) (matchId : ℕ) (w : Option String)
    (now : ℕ) (m0 : MatchRow)
    (hfind : s.matches.find? (fun m => m.id == matchId) = some m0) :
    completeMatch matchId w now s =
      Except.ok (completeRow m0 w now,
        ratingsAfterCompletion matchId w now s m0
          (if w = some m0.player1Id then 1
           else if w = some m0.player2Id then 0 else 0.5)) := by
  have hkey : (m0.id == matchId) = true :=
    List.find?_some (p := fun m : MatchRow => m.id == matchId) hfind
  have hfm : (s.matches.map fun m =>
      if m.id == matchId then completeRow m w now else m).find?
      (fun m => m.id == matchId) = some (completeRow m0 w now) := by
    rw [List.find?_map, funext (completeRow_map_id_comp matchId w now), hfind,
      Option.map_some', if_pos hkey]
  simp only [completeMatch]
  rw [hfm]
  rfl

/-- C3 (amended): `completeMatch(matchId, winnerId)` fails with "Match ... not
found" exactly when no match row carries that id; but there is no
exactly-once guard: whenever a row with that id exists — whatever its status,
in particular when it is already completed — the call succeeds, overwrites
completedAt and winnerId on the row, and invokes the rating update again. -/
theorem completeMatch_not_found_or_recompletes (s : DBState) (matchId : ℕ) (w : Option String) (now : ℕ) :
    ((∀ m ∈ s.matches, m.id ≠ matchId) →
      completeMatch matchId w now s =
        Except.error ("Match " ++ toString matchId ++ " not found")) ∧
    (∀ m0, s.matches.find? (fun m => m.id == matchId) = some m0 →
      completeMatch matchId w now s =
        Except.ok (completeRow m0 w now,
          (updateRatings m0.player1Id m0.player2Id m0.gameMode
            (if w = some m0.player1Id then 1
             else if w = some m0.player2Id then 0 else 0.5) now
            { s with «matches» :=
                s.matches.map fun m =>
                  if m.id == matchId then completeRow m w now else m }).2)) :=
  ⟨fun hnone => completeMatch_not_found_eq s matchId w now hnone,
   fun m0 hfind => completeMatch_found_eq s matchId w now m0 hfind⟩

/-- Witness for the amended C3 theorem: completing nonexistent match 7 fails;
re-completing the already-completed match 0 succeeds (status stays completed,
fields overwritten). -/
theorem completeMatch_not_found_or_recompletes_witness :
    completeMatch 7 (some "b") 9 cSeed =
      Except.error ("Match " ++ toString (7 : ℕ) ++ " not found") ∧
    (completeMatch 0 (some "b") 9 cSeed).toOption.map (fun p => p.1.status) =
      some MatchStatus.completed := by
  constructor
  · exact (completeMatch_not_found_or_recompletes cSeed 7 (some "b") 9).1 (by decide)
  · rw [(completeMatch_not_found_or_recompletes cSeed 0 (some "b") 9).2
      { id := 0, gameMode := "m", player1Id := "a", player2Id := "b",
        startedAt := 2, completedAt := some 5, winnerId := some "a",
        status := MatchStatus.completed, gameNumber := 1 } (by decide)]
    rfl

/-- Helper: unfolding of `updateRatings` when both rating rows exist: both
update statements rewrite the matching rows with the values computed from the
fetched rows `r1` and `r2`. -/
theorem updateRatings_eq_of_found (player1Id player2Id gameMode : String) (result : ℝ)
    (now : ℕ) (s : DBState) (r1 r2 : Rating)
    (h1 : getPlayerRating s player1Id gameMode = some r1)
    (h2 : getPlayerRating s player2Id gameMode = some r2) :
    updateRatings player1Id player2Id gameMode result now s =
      ((calculateNewRating r1.rating (calculateExpectedScore r1.rating r2.rating)
          result r1.gamesPlayed,
        calculateNewRating r2.rating (calculateExpectedScore r2.rating r1.rating)
          (1 - result) r2.gamesPlayed),
       { s with ratings :=
          (s.ratings.map fun r =>
            if ratingKey player1Id gameMode r then
              (p1UpdatedRow r1
                (calculateNewRating r1.rating (calculateExpectedScore r1.rating r2.rating)
                  result r1.gamesPlayed)
                result now r)
            else r).map fun r =>
            if ratingKey player2Id gameMode r then
              (p2UpdatedRow r2
                (calculateNewRating r2.rating (calculateExpectedScore r2.rating r1.rating)
                  (1 - result) r2.gamesPlayed)
                result now r)
            else r }) := by
  simp only [updateRatings, getOrCreatePlayerRating, h1, h2]

/-- Helper: unfolding of `updateRatings` when neither player has a rating row:
both default rows (rating 1000, 0 games) are inserted and then rewritten by
the two update statements. -/
theorem updateRatings_eq_of_created (player1Id player2Id gameMode : String) (result : ℝ)
    (now : ℕ) (s : DBState)
    (h1 : getPlayerRating s player1Id gameMode = none)
    (h2 : getPlayerRating s player2Id gameMode = none)
    (hne : player1Id ≠ player2Id) :
    updateRatings player1Id player2Id gameMode result now s =
      ((calculateNewRating 1000 (calculateExpectedScore 1000 1000) result 0,
        calculateNewRating 1000 (calculateExpectedScore 1000 1000) (1 - result) 0),
       { s with ratings :=
          (((s.ratings ++ [defaultRating player1Id gameMode now]) ++
              [defaultRating player2Id gameMode now]).map fun r =>
            if ratingKey player1Id gameMode r then
              (p1UpdatedRow (defaultRating player1Id gameMode now)
                (calculateNewRating 1000 (calculateExpectedScore 1000 1000) result 0)
                result now r)
            else r).map fun r =>
            if ratingKey player2Id gameMode r then
              (p2UpdatedRow (defaultRating player2Id gameMode now)
                (calculateNewRating 1000 (calculateExpectedScore 1000 1000) (1 - result) 0)
                result now r)
            else r }) := by
  have h2' : getPlayerRating
      { s with ratings := s.ratings ++ [defaultRating player1Id gameMode now] }
      player2Id gameMode = none := by
    show List.find? (ratingKey player2Id gameMode)
      (s.ratings ++ [defaultRating player1Id gameMode now]) = none
    rw [List.find?_append, show List.find? (ratingKey player2Id gameMode) s.ratings = none
      from h2]
    simp [ratingKey, defaultRating, hne]
  simp only [updateRatings, getOrCreatePlayerRating, h1, h2']
  rfl

/-- C10: whenever winnerId equals neither participant — a non-null
non-participant id here, not only null — `completeMatch` records the match as
a draw for rating purposes: result 0.5 is passed to the rating update, so
every rating row of either player has its draws counter incremented (wins and
losses unchanged) and its rating adjusted exactly as for a draw. -/
theorem completeMatch_nonparticipant_winner_draw (s : DBState) (matchId : ℕ)
    (w : String) (now : ℕ) (m0 : MatchRow) (r1 r2 : Rating)
    (hfind : s.matches.find? (fun m => m.id == matchId) = some m0)
    (hw1 : w ≠ m0.player1Id) (hw2 : w ≠ m0.player2Id)
    (hne : m0.player1Id ≠ m0.player2Id)
    (hr1 : getPlayerRating s m0.player1Id m0.gameMode = some r1)
    (hr2 : getPlayerRating s m0.player2Id m0.gameMode = some r2) :
    completeMatch matchId (some w) now s =
      Except.ok (completeRow m0 (some w) now,
        ratingsAfterCompletion matchId (some w) now s m0 0.5) ∧
    ∀ r' ∈ (ratingsAfterCompletion matchId (some w) now s m0 0.5).ratings,
      (r'.playerId = m0.player1Id ∧ r'.gameMode = m0.gameMode →
        r'.draws = r1.draws + 1 ∧ r'.wins = r1.wins ∧ r'.losses = r1.losses ∧
        r'.gamesPlayed = r1.gamesPlayed + 1 ∧
        r'.rating = (calculateNewRating r1.rating
          (calculateExpectedScore r1.rating r2.rating) 0.5 r1.gamesPlayed : ℝ)) ∧
      (r'.playerId = m0.player2Id ∧ r'.gameMode = m0.gameMode →
        r'.draws = r2.draws + 1 ∧ r'.wins = r2.wins ∧ r'.losses = r2.losses ∧
        r'.gamesPlayed = r2.gamesPlayed + 1 ∧
        r'.rating = (calculateNewRating r2.rating
          (calculateExpectedScore r2.rating r1.rating) 0.5 r2.gamesPlayed : ℝ)) := by
  have hres : (if (some w : Option String) = some m0.player1Id then (1:ℝ)
      else if (some w : Option String) = some m0.player2Id then 0 else 0.5) = 0.5 := by
    rw [if_neg (by simp [hw1]), if_neg (by simp [hw2])]
  constructor
  · have h := completeMatch_found_eq s matchId (some w) now m0 hfind
    rw [hres] at h
    exact h
  · intro r' hr'
    have hhalf : (1 : ℝ) - 0.5 = 0.5 := by norm_num
    have huf := updateRatings_eq_of_found m0.player1Id m0.player2Id m0.gameMode 0.5 now
      { s with «matches» :=
          s.matches.map fun m => if m.id == matchId then completeRow m (some w) now else m }
      r1 r2 hr1 hr2
    rw [hhalf] at huf
    simp only [ratingsAfterCompletion] at hr'
    rw [huf] at hr'
    simp only [List.mem_map] at hr'
    obtain ⟨ra, hra, rfl⟩ := hr'
    obtain ⟨rb, hrb, rfl⟩ := hra
    by_cases hk1 : ratingKey m0.player1Id m0.gameMode rb = true
    · have hbp : rb.playerId = m0.player1Id ∧ rb.gameMode = m0.gameMode := by
        simpa [ratingKey] using hk1
      rw [if_pos hk1]
      have hfalse : ratingKey m0.player2Id m0.gameMode
          (p1UpdatedRow r1 (calculateNewRating r1.rating
            (calculateExpectedScore r1.rating r2.rating) 0.5 r1.gamesPlayed) 0.5 now rb) = false := by
        simp [ratingKey, p1UpdatedRow, hbp.1, hne]
      rw [if_neg (by simp [hfalse])]
      constructor
      · intro _
        refine ⟨?_, ?_, ?_, rfl, rfl⟩
        · simp [p1UpdatedRow]
        · simp only [p1UpdatedRow]
          rw [if_neg (by norm_num : ¬ ((0.5:ℝ) = 1))]
        · simp only [p1UpdatedRow]
          rw [if_neg (by norm_num : ¬ ((0.5:ℝ) = 0))]
      · intro hcontr
        exfalso
        have hpp := hcontr.1
        simp only [p1UpdatedRow, hbp.1] at hpp
        exact hne hpp
    · rw [if_neg hk1]
      by_cases hk2 : ratingKey m0.player2Id m0.gameMode rb = true
      · have hbp : rb.playerId = m0.player2Id ∧ rb.gameMode = m0.gameMode := by
          simpa [ratingKey] using hk2
        rw [if_pos hk2]
        constructor
        · intro hcontr
          exfalso
          have hpp := hcontr.1
          simp only [p2UpdatedRow, hbp.1] at hpp
          exact hne hpp.symm
        · intro _
          refine ⟨?_, ?_, ?_, rfl, rfl⟩
          · simp [p2UpdatedRow]
          · simp only [p2UpdatedRow]
            rw [if_neg (by norm_num : ¬ ((0.5:ℝ) = 0))]
          · simp only [p2UpdatedRow]
            rw [if_neg (by norm_num : ¬ ((0.5:ℝ) = 1))]
      · rw [if_neg hk2]
        constructor
        · intro hcontr
          exact absurd (by simp [ratingKey, hcontr.1, hcontr.2]) hk1
        · intro hcontr
          exact absurd (by simp [ratingKey, hcontr.1, hcontr.2]) hk2

/-- Witness for the C10 theorem: completing `cSeed`'s match between "a" and
"b" with non-participant winner "z" passes result 0.5 to the rating update. -/
theorem completeMatch_nonparticipant_winner_draw_witness :
    completeMatch 0 (some "z") 9 cSeed =
      Except.ok (completeRow
        { id := 0, gameMode := "m", player1Id := "a", player2Id := "b",
          startedAt := 2, completedAt := some 5, winnerId := some "a",
          status := MatchStatus.completed, gameNumber := 1 } (some "z") 9,
        ratingsAfterCompletion 0 (some "z") 9 cSeed
          { id := 0, gameMode := "m", player1Id := "a", player2Id := "b",
            startedAt := 2, completedAt := some 5, winnerId := some "a",
            status := MatchStatus.completed, gameNumber := 1 } 0.5) :=
  (completeMatch_nonparticipant_winner_draw cSeed 0 "z" 9
    { id := 0, gameMode := "m", player1Id := "a", player2Id := "b",
      startedAt := 2, completedAt := some 5, winnerId := some "a",
      status := MatchStatus.completed, gameNumber := 1 }
    { playerId := "a", gameMode := "m", rating := 1016, gamesPlayed := 1,
      wins := 1, losses := 0, draws := 0, lastPlayed := some 5, peakRating := 1016 }
    { playerId := "b", gameMode := "m", rating := 984, gamesPlayed := 1,
      wins := 0, losses := 1, draws := 0, lastPlayed := some 5, peakRating := 1000 }
    (by decide) (by decide) (by decide) (by decide) rfl rfl).1

/-- Helper: freshly created rating rows satisfy the spec invariant. -/
theorem RatingInv_defaultRating (playerId gameMode : String) (now : ℕ) :
    RatingInv (defaultRating playerId gameMode now) :=
  ⟨le_refl _, rfl⟩

/-- Helper: the row written for player 1 keeps the invariant when the fetched
row satisfied it and the result is one of the three standard values. -/
theorem RatingInv_p1UpdatedRow (r1 : Rating) (n1 : ℤ) (result : ℝ) (now : ℕ) (x : Rating)
    (hinv : RatingInv r1) (hres : result = 0 ∨ result = 0.5 ∨ result = 1) :
    RatingInv (p1UpdatedRow r1 n1 result now x) := by
  constructor
  · show (n1 : ℝ) ≤ max r1.peakRating (n1 : ℝ)
    exact le_max_right _ _
  · show r1.gamesPlayed + 1 =
      (if result = 1 then r1.wins + 1 else r1.wins) +
      (if result = 0 then r1.losses + 1 else r1.losses) +
      (if result = 0.5 then r1.draws + 1 else r1.draws)
    have hsum := hinv.2
    rcases hres with rfl | rfl | rfl
    · rw [if_neg (by norm_num), if_pos rfl, if_neg (by norm_num)]
      omega
    · rw [if_neg (by norm_num), if_neg (by norm_num), if_pos rfl]
      omega
    · rw [if_pos rfl, if_neg (by norm_num), if_neg (by norm_num)]
      omega

/-- Helper: the row written for player 2 keeps the invariant when the fetched
row satisfied it and the result is one of the three standard values. -/
theorem RatingInv_p2UpdatedRow (r2 : Rating) (n2 : ℤ) (result : ℝ) (now : ℕ) (x : Rating)
    (hinv : RatingInv r2) (hres : result = 0 ∨ result = 0.5 ∨ result = 1) :
    RatingInv (p2UpdatedRow r2 n2 result now x) := by
  constructor
  · show (n2 : ℝ) ≤ max r2.peakRating (n2 : ℝ)
    exact le_max_right _ _
  · show r2.gamesPlayed + 1 =
      (if result = 0 then r2.wins + 1 else r2.wins) +
      (if result = 1 then r2.losses + 1 else r2.losses) +
      (if result = 0.5 then r2.draws + 1 else r2.draws)
    have hsum := hinv.2
    rcases hres with rfl | rfl | rfl
    · rw [if_pos rfl, if_neg (by norm_num), if_neg (by norm_num)]
      omega
    · rw [if_neg (by norm_num), if_neg (by norm_num), if_pos rfl]
      omega
    · rw [if_neg (by norm_num), if_pos rfl, if_neg (by norm_num)]
      omega

/-- Helper: `getOrCreatePlayerRating` returns an invariant-satisfying row and
leaves every stored row invariant-satisfying. -/
theorem getOrCreatePlayerRating_inv (playerId gameMode : String) (now : ℕ) (s : DBState)
    (h : ∀ r ∈ s.ratings, RatingInv r) :
    RatingInv (getOrCreatePlayerRating playerId gameMode now s).1 ∧
    ∀ r ∈ (getOrCreatePlayerRating playerId gameMode now s).2.ratings, RatingInv r := by
  unfold getOrCreatePlayerRating
  cases hc : getPlayerRating s playerId gameMode with
  | some r =>
      exact ⟨h r (List.mem_of_find?_eq_some hc), h⟩
  | none =>
      refine ⟨RatingInv_defaultRating _ _ _, ?_⟩
      intro r hr
      rcases List.mem_append.mp hr with hr' | hr'
      · exact h r hr'
      · rcases List.mem_singleton.mp hr' with rfl
        exact RatingInv_defaultRating _ _ _

/-- Helper: `updateRatings` preserves the rating invariant on every row for
the three standard result values. -/
theorem updateRatings_inv (player1Id player2Id gameMode : String) (result : ℝ)
    (now : ℕ) (s : DBState)
    (h : ∀ r ∈ s.ratings, RatingInv r)
    (hres : result = 0 ∨ result = 0.5 ∨ result = 1) :
    ∀ r' ∈ ((updateRatings player1Id player2Id gameMode result now s).2).ratings,
      RatingInv r' := by
  intro r' hr'
  have hg1 := getOrCreatePlayerRating_inv player1Id gameMode now s h
  have hg2 := getOrCreatePlayerRating_inv player2Id gameMode now
    (getOrCreatePlayerRating player1Id gameMode now s).2 hg1.2
  simp only [updateRatings, List.mem_map] at hr'
  obtain ⟨ra, hra, rfl⟩ := hr'
  obtain ⟨rb, hrb, rfl⟩ := hra
  have hb : RatingInv rb := hg2.2 rb hrb
  split
  · split
    · exact RatingInv_p2UpdatedRow _ _ _ _ _ hg2.1 hres
    · exact RatingInv_p1UpdatedRow _ _ _ _ _ hg1.1 hres
  · split
    · exact RatingInv_p2UpdatedRow _ _ _ _ _ hg2.1 hres
    · exact hb

set_option maxHeartbeats 1000000 in
/-- C4 (amended): rating rows are created with rating = peakRating = 1000 and
zero counters (satisfying the invariant), and both invariant equations are
preserved for both players by `updateRatings` whenever the result is one of
the three values 0 / 0.5 / 1 that the system itself passes — in particular by
every successful `completeMatch`, whose derived result always lies in that
set.  For an arbitrary result value (which the function accepts), gamesPlayed
is incremented while no counter is, breaking the second equation. -/
theorem ratingInv_preserved_by_rating_updates (s : DBState) (player1Id player2Id gameMode : String) (result : ℝ)
    (now : ℕ) (matchId : ℕ) (w : Option String)
    (h : ∀ r ∈ s.ratings, RatingInv r) :
    RatingInv (defaultRating player1Id gameMode now) ∧
    ((result = 0 ∨ result = 0.5 ∨ result = 1) →
      ∀ r' ∈ ((updateRatings player1Id player2Id gameMode result now s).2).ratings,
        RatingInv r') ∧
    (∀ m' s', completeMatch matchId w now s = Except.ok (m', s') →
      ∀ r' ∈ s'.ratings, RatingInv r') := by
  refine ⟨RatingInv_defaultRating _ _ _,
    fun hres => updateRatings_inv _ _ _ _ _ _ h hres, ?_⟩
  intro m' s' hok r' hr'
  rcases hfind : s.matches.find? (fun m => m.id == matchId) with _ | m0
  · rw [completeMatch_not_found_eq s matchId w now
      (fun m hm => by simpa using List.find?_eq_none.mp hfind m hm)] at hok
    exact absurd hok (by simp)
  · rw [completeMatch_found_eq s matchId w now m0 hfind] at hok
    injection hok with hpair
    injection hpair with h1 h2
    subst h2
    have hres : (if w = some m0.player1Id then (1:ℝ)
        else if w = some m0.player2Id then 0 else 0.5) = 0 ∨
        (if w = some m0.player1Id then (1:ℝ)
        else if w = some m0.player2Id then 0 else 0.5) = 0.5 ∨
        (if w = some m0.player1Id then (1:ℝ)
        else if w = some m0.player2Id then 0 else 0.5) = 1 := by
      by_cases h1 : w = some m0.player1Id
      · rw [if_pos h1]
        exact Or.inr (Or.inr rfl)
      · rw [if_neg h1]
        by_cases h2 : w = some m0.player2Id
        · rw [if_pos h2]
          exact Or.inl rfl
        · rw [if_neg h2]
          exact Or.inr (Or.inl rfl)
    simp only [ratingsAfterCompletion] at hr'
    have hall := updateRatings_inv m0.player1Id m0.player2Id m0.gameMode
      (if w = some m0.player1Id then 1
       else if w = some m0.player2Id then 0 else 0.5) now
      { s with «matches» :=
          s.matches.map fun m => if m.id == matchId then completeRow m w now else m }
      h hres
    exact hall r' hr'

/-- C4 counterexample: `updateRatings` accepts any numeric result; with
result = 3/10 (not 0, 0.5 or 1) on invariant-satisfying rows of `cSeed`, both
players end with gamesPlayed = 2 but wins + losses + draws = 1 — the claimed
invariant `gamesPlayed = wins + losses + draws` is not preserved for every
accepted result value. -/
theorem updateRatings_arbitrary_result_breaks_invariant :
    ((3:ℝ)/10 ≠ 0 ∧ (3:ℝ)/10 ≠ 0.5 ∧ (3:ℝ)/10 ≠ 1) ∧
    (∀ r ∈ cSeed.ratings, RatingInv r) ∧
    ((updateRatings "a" "b" "m" (3/10) 7 cSeed).2.ratings.map
      (fun r => (r.gamesPlayed, r.wins + r.losses + r.draws))) = [(2, 1), (2, 1)] := by
  refine ⟨⟨by norm_num, by norm_num, by norm_num⟩, ?_, ?_⟩
  · intro r hr
    simp only [cSeed, List.mem_cons, List.not_mem_nil, or_false] at hr
    rcases hr with rfl | rfl
    · exact ⟨by norm_num, by norm_num⟩
    · exact ⟨by norm_num, by norm_num⟩
  · rw [updateRatings_eq_of_found "a" "b" "m" (3/10) 7 cSeed
      { playerId := "a", gameMode := "m", rating := 1016, gamesPlayed := 1,
        wins := 1, losses := 0, draws := 0, lastPlayed := some 5, peakRating := 1016 }
      { playerId := "b", gameMode := "m", rating := 984, gamesPlayed := 1,
        wins := 0, losses := 1, draws := 0, lastPlayed := some 5, peakRating := 1000 }
      rfl rfl]
    norm_num [cSeed, ratingKey, p1UpdatedRow, p2UpdatedRow,
      show ("a" : String) ≠ "b" from by decide, show ("b" : String) ≠ "a" from by decide]

/-- Witness for the amended C4 theorem at `cSeed` with a draw result. -/
theorem ratingInv_preserved_by_rating_updates_witness :
    RatingInv (defaultRating "a" "m" 5) ∧
    (∀ r' ∈ ((updateRatings "a" "b" "m" 0.5 5 cSeed).2).ratings, RatingInv r') := by
  have hd : ∀ r ∈ cSeed.ratings, RatingInv r := by
    intro r hr
    simp only [cSeed, List.mem_cons, List.not_mem_nil, or_false] at hr
    rcases hr with rfl | rfl
    · exact ⟨by norm_num, by norm_num⟩
    · exact ⟨by norm_num, by norm_num⟩
  exact ⟨(ratingInv_preserved_by_rating_updates cSeed "a" "b" "m" 0.5 5 0 none hd).1,
    (ratingInv_preserved_by_rating_updates cSeed "a" "b" "m" 0.5 5 0 none hd).2.1 (Or.inr (Or.inl rfl))⟩

/-- Helper: the conditional player-1 update leaves the lookup key unchanged. -/
theorem ratingKey_ite_p1UpdatedRow (q M p g' : String) (pr : Rating) (n : ℤ)
    (res : ℝ) (now : ℕ) (x : Rating) :
    ratingKey q M (if ratingKey p g' x then p1UpdatedRow pr n res now x else x) =
      ratingKey q M x := by
  split <;> rfl

/-- Helper: the conditional player-2 update leaves the lookup key unchanged. -/
theorem ratingKey_ite_p2UpdatedRow (q M p g' : String) (pr : Rating) (n : ℤ)
    (res : ℝ) (now : ℕ) (x : Rating) :
    ratingKey q M (if ratingKey p g' x then p2UpdatedRow pr n res now x else x) =
      ratingKey q M x := by
  split <;> rfl

/-- Helper: the player-1 row update does not change the key columns. -/
theorem ratingKey_p1UpdatedRow (q M : String) (pr : Rating) (n : ℤ)
    (res : ℝ) (now : ℕ) (x : Rating) :
    ratingKey q M (p1UpdatedRow pr n res now x) = ratingKey q M x := rfl

/-- Helper: the player-2 row update does not change the key columns. -/
theorem ratingKey_p2UpdatedRow (q M : String) (pr : Rating) (n : ℤ)
    (res : ℝ) (now : ℕ) (x : Rating) :
    ratingKey q M (p2UpdatedRow pr n res now x) = ratingKey q M x := rfl

/-- Helper: composing the key filter with the player-1 update map is the filter. -/
theorem ratingKey_comp_ite_p1 (q M p g' : String) (pr : Rating) (n : ℤ)
    (res : ℝ) (now : ℕ) :
    (ratingKey q M ∘ fun r =>
      if ratingKey p g' r then p1UpdatedRow pr n res now r else r) = ratingKey q M :=
  funext fun x => ratingKey_ite_p1UpdatedRow q M p g' pr n res now x

/-- Helper: composing the key filter with the player-2 update map is the filter. -/
theorem ratingKey_comp_ite_p2 (q M p g' : String) (pr : Rating) (n : ℤ)
    (res : ℝ) (now : ℕ) :
    (ratingKey q M ∘ fun r =>
      if ratingKey p g' r then p2UpdatedRow pr n res now r else r) = ratingKey q M :=
  funext fun x => ratingKey_ite_p2UpdatedRow q M p g' pr n res now x

/-- C1: for a match between two distinct players neither of whom has a Rating
row (each is created with default rating 1000 and gamesPlayed = 0),
`completeMatch` with player 1 as winner succeeds and leaves player 1's row at
rating 1032 with peakRating 1032 (one win), and player 2's row at rating 968
with peakRating still 1000 (one loss): round(1000 + 64·(1 − 1/2)) = 1032 and
round(1000 + 64·(0 − 1/2)) = 968 with the provisional k = 64 since
gamesPlayed = 0 < 10. -/
theorem completeMatch_fresh_players_winner_1032_968 (s : DBState) (mid now : ℕ) (m0 : MatchRow)
    (hne : m0.player1Id ≠ m0.player2Id)
    (hfind : s.matches.find? (fun m => m.id == mid) = some m0)
    (hr1 : getPlayerRating s m0.player1Id m0.gameMode = none)
    (hr2 : getPlayerRating s m0.player2Id m0.gameMode = none) :
    completeMatch mid (some m0.player1Id) now s =
      Except.ok (completeRow m0 (some m0.player1Id) now,
        ratingsAfterCompletion mid (some m0.player1Id) now s m0 1) ∧
    getPlayerRating (ratingsAfterCompletion mid (some m0.player1Id) now s m0 1)
        m0.player1Id m0.gameMode =
      some { playerId := m0.player1Id, gameMode := m0.gameMode, rating := 1032,
             gamesPlayed := 1, wins := 1, losses := 0, draws := 0,
             lastPlayed := some now, peakRating := 1032 } ∧
    getPlayerRating (ratingsAfterCompletion mid (some m0.player1Id) now s m0 1)
        m0.player2Id m0.gameMode =
      some { playerId := m0.player2Id, gameMode := m0.gameMode, rating := 968,
             gamesPlayed := 1, wins := 0, losses := 1, draws := 0,
             lastPlayed := some now, peakRating := 1000 } := by
  have he : calculateExpectedScore 1000 1000 = 1/2 := by
    unfold calculateExpectedScore
    norm_num
  have hn1 : calculateNewRating 1000 (calculateExpectedScore 1000 1000) 1 0 = 1032 := by
    rw [he]
    show round ((1000:ℝ) + (if (0:ℤ) < PROVISIONAL_THRESHOLD then PROVISIONAL_K_FACTOR
      else K_FACTOR) * (1 - 1/2)) = 1032
    rw [if_pos (by norm_num [PROVISIONAL_THRESHOLD])]
    rw [show (1000:ℝ) + PROVISIONAL_K_FACTOR * (1 - 1/2) = ((1032:ℤ):ℝ) from by
      norm_num [PROVISIONAL_K_FACTOR]]
    exact round_intCast 1032
  have hn2 : calculateNewRating 1000 (calculateExpectedScore 1000 1000) (1 - 1) 0 = 968 := by
    rw [he]
    show round ((1000:ℝ) + (if (0:ℤ) < PROVISIONAL_THRESHOLD then PROVISIONAL_K_FACTOR
      else K_FACTOR) * ((1 - 1) - 1/2)) = 968
    rw [if_pos (by norm_num [PROVISIONAL_THRESHOLD])]
    rw [show (1000:ℝ) + PROVISIONAL_K_FACTOR * ((1 - 1) - 1/2) = ((968:ℤ):ℝ) from by
      norm_num [PROVISIONAL_K_FACTOR]]
    exact round_intCast 968
  have hfr1 : List.find? (ratingKey m0.player1Id m0.gameMode) s.ratings = none := hr1
  have hfr2 : List.find? (ratingKey m0.player2Id m0.gameMode) s.ratings = none := hr2
  have hkd1p1 : ratingKey m0.player1Id m0.gameMode
      (defaultRating m0.player1Id m0.gameMode now) = true := by
    simp [ratingKey, defaultRating]
  have hkd1p2 : ratingKey m0.player2Id m0.gameMode
      (defaultRating m0.player1Id m0.gameMode now) = false := by
    simp [ratingKey, defaultRating, hne]
  have hkd2p2 : ratingKey m0.player2Id m0.gameMode
      (defaultRating m0.player2Id m0.gameMode now) = true := by
    simp [ratingKey, defaultRating]
  have hkd2p1 : ratingKey m0.player1Id m0.gameMode
      (defaultRating m0.player2Id m0.gameMode now) = false := by
    simp [ratingKey, defaultRating]
    exact fun h => absurd h.symm hne
  have hcm := completeMatch_found_eq s mid (some m0.player1Id) now m0 hfind
  rw [if_pos rfl] at hcm
  refine ⟨hcm, ?_, ?_⟩
  · simp only [ratingsAfterCompletion]
    rw [updateRatings_eq_of_created m0.player1Id m0.player2Id m0.gameMode 1 now
      { s with «matches» :=
          s.matches.map fun m => if m.id == mid then completeRow m (some m0.player1Id) now else m }
      hr1 hr2 hne]
    simp only [getPlayerRating, List.find?_map, ratingKey_comp_ite_p1, ratingKey_comp_ite_p2]
    rw [List.find?_append, List.find?_append, hfr1,
      List.find?_cons_of_pos _ hkd1p1, Option.none_or]
    rw [show (some (defaultRating m0.player1Id m0.gameMode now)).or
      (List.find? (ratingKey m0.player1Id m0.gameMode)
        [defaultRating m0.player2Id m0.gameMode now]) =
      some (defaultRating m0.player1Id m0.gameMode now) from rfl]
    simp only [Option.map_some']
    rw [if_pos hkd1p1]
    rw [if_neg (by rw [ratingKey_p1UpdatedRow]; simp [hkd1p2])]
    simp only [p1UpdatedRow, defaultRating, hn1, Option.some.injEq, Rating.mk.injEq]
    norm_num [max_def]
  · simp only [ratingsAfterCompletion]
    rw [updateRatings_eq_of_created m0.player1Id m0.player2Id m0.gameMode 1 now
      { s with «matches» :=
          s.matches.map fun m => if m.id == mid then completeRow m (some m0.player1Id) now else m }
      hr1 hr2 hne]
    simp only [getPlayerRating, List.find?_map, ratingKey_comp_ite_p1, ratingKey_comp_ite_p2]
    rw [List.find?_append, List.find?_append, hfr2,
      List.find?_cons_of_neg _ (by simp [hkd1p2]), List.find?_nil,
      List.find?_cons_of_pos _ hkd2p2, Option.none_or, Option.none_or]
    simp only [Option.map_some']
    rw [show (if ratingKey m0.player1Id m0.gameMode
          (defaultRating m0.player2Id m0.gameMode now) = true then
        p1UpdatedRow (defaultRating m0.player1Id m0.gameMode now)
          (calculateNewRating 1000 (calculateExpectedScore 1000 1000) 1 0) 1 now
          (defaultRating m0.player2Id m0.gameMode now)
      else (defaultRating m0.player2Id m0.gameMode now)) =
        defaultRating m0.player2Id m0.gameMode now from by
      rw [if_neg (by simp [hkd2p1])]]
    rw [if_pos hkd2p2]
    simp only [p2UpdatedRow, defaultRating, hn2, Option.some.injEq, Rating.mk.injEq]
    norm_num [max_def]

/-- Witness for the C1 theorem on `eSeed`: completing the fresh match between
"a" and "b" with "a" as winner yields the claimed rows. -/
theorem completeMatch_fresh_players_winner_1032_968_witness :
    getPlayerRating (ratingsAfterCompletion 0 (some "a") 9 eSeed
        { id := 0, gameMode := "m", player1Id := "a", player2Id := "b",
          startedAt := 3, completedAt := none, winnerId := none,
          status := MatchStatus.in_progress, gameNumber := 1 } 1) "a" "m" =
      some { playerId := "a", gameMode := "m", rating := 1032, gamesPlayed := 1,
             wins := 1, losses := 0, draws := 0, lastPlayed := some 9,
             peakRating := 1032 } ∧
    getPlayerRating (ratingsAfterCompletion 0 (some "a") 9 eSeed
        { id := 0, gameMode := "m", player1Id := "a", player2Id := "b",
          startedAt := 3, completedAt := none, winnerId := none,
          status := MatchStatus.in_progress, gameNumber := 1 } 1) "b" "m" =
      some { playerId := "b", gameMode := "m", rating := 968, gamesPlayed := 1,
             wins := 0, losses := 1, draws := 0, lastPlayed := some 9,
             peakRating := 1000 } :=
  ⟨(completeMatch_fresh_players_winner_1032_968 eSeed 0 9
      { id := 0, gameMode := "m", player1Id := "a", player2Id := "b",
        startedAt := 3, completedAt := none, winnerId := none,
        status := MatchStatus.in_progress, gameNumber := 1 }
      (by decide) (by decide) rfl rfl).2.1,
   (completeMatch_fresh_players_winner_1032_968 eSeed 0 9
      { id := 0, gameMode := "m", player1Id := "a", player2Id := "b",
        startedAt := 3, completedAt := none, winnerId := none,
        status := MatchStatus.in_progress, gameNumber := 1 }
      (by decide) (by decide) rfl rfl).2.2⟩
